import Mathlib

/-!
Shallow embedding of the office-network admission gate implemented in
src/api/attendance/checkin.ts (helpers normalizeStringList, ipv4ToInt,
cidrContainsIPv4, ipAllowedByCidrs, getHeaderValue, getClientIpFromRequest,
fetchOfficeSettings, requireOfficeNetwork, verifyOfficePass, default handler)
together with the admission-gate GET route that shapes its HTTP responses.

JavaScript strings are modelled as Lean String values; JS semantics of the
primitives the source uses (String.prototype.split with a one-character
separator, String.prototype.trim, Number coercion, 32-bit bitwise operators)
are given as explicit Lean functions below.  External effectful calls
(HMAC-SHA256, base64url decoding, JSON.parse, the settings fetch and the
IPinfo lookup) are threaded as explicit parameters, so every function is a
pure, executable Lean definition.
-/

namespace SynergyHR

/-- Models JS String.prototype.split with a single-character separator,
on the character list of the string. -/
def splitChar (sep : Char) : List Char → List (List Char)
  | [] => [[]]
  | c :: rest =>
    match splitChar sep rest with
    | h :: t => if c = sep then [] :: h :: t else (c :: h) :: t
    | [] => if c = sep then [[], []] else [[c]]

/-- Models JS s.split(sep) for a one-character separator string. -/
def jsSplit (sep : Char) (s : String) : List String :=
  (splitChar sep s.data).map String.mk

/-- Models JS String.prototype.trim (ASCII whitespace suffices for the
inputs this gate handles). -/
def jsTrim (s : String) : String :=
  String.mk (((s.data.dropWhile Char.isWhitespace).reverse.dropWhile Char.isWhitespace).reverse)

/-- ASCII lower-casing, models String.prototype.toLowerCase on header names. -/
def jsToLower (s : String) : String :=
  String.mk (s.data.map fun c => if 'A' ≤ c ∧ c ≤ 'Z' then Char.ofNat (c.toNat + 32) else c)

/-- Decimal value of a digit list. -/
def decimalVal (l : List Char) : Nat :=
  l.foldl (fun acc c => acc * 10 + (c.toNat - 48)) 0

/-- Hexadecimal digit test. -/
def isHexDigit (c : Char) : Bool :=
  c.isDigit || ('a' ≤ c ∧ c ≤ 'f') || ('A' ≤ c ∧ c ≤ 'F')

/-- Hexadecimal value of a hex-digit list. -/
def hexVal (l : List Char) : Nat :=
  l.foldl (fun acc c =>
    acc * 16 + (if c.isDigit then c.toNat - 48 else if 'a' ≤ c ∧ c ≤ 'f' then c.toNat - 87 else c.toNat - 55)) 0

/-- Models the composite the source always uses: Number(s) followed by the
Number.isInteger test.  Returns some n exactly when Number(s) is the finite
integer n; none models NaN (and non-integer results).  Covers the
whitespace/empty/signed-decimal/hexadecimal forms of the JS grammar, which
are the forms the gate's inputs exercise; in particular Number of the empty
or all-whitespace string is 0. -/
def jsNum (s : String) : Option Int :=
  match (s.data.dropWhile Char.isWhitespace).reverse.dropWhile Char.isWhitespace |>.reverse with
  | [] => some 0
  | '0' :: 'x' :: rest =>
    if rest ≠ [] ∧ rest.all isHexDigit then some (hexVal rest) else none
  | '0' :: 'X' :: rest =>
    if rest ≠ [] ∧ rest.all isHexDigit then some (hexVal rest) else none
  | '-' :: rest =>
    if rest ≠ [] ∧ rest.all Char.isDigit then some (-(decimalVal rest : Int)) else none
  | '+' :: rest =>
    if rest ≠ [] ∧ rest.all Char.isDigit then some ((decimalVal rest : Int)) else none
  | l =>
    if l.all Char.isDigit then some ((decimalVal l : Int)) else none

/-- JS ToUint32. -/
def toUint32 (i : Int) : Nat := (i % (2 ^ 32 : Int)).toNat

/-- JS ToInt32. -/
def toInt32 (i : Int) : Int :=
  if i % (2 ^ 32 : Int) < 2 ^ 31 then i % (2 ^ 32 : Int) else i % (2 ^ 32 : Int) - 2 ^ 32

/-- JS left shift a << b (operands through ToInt32/ToUint32, shift count mod 32). -/
def jsShl (a b : Int) : Int := toInt32 (toInt32 a * 2 ^ (toUint32 b % 32))

/-- JS bitwise NOT. -/
def jsNot (a : Int) : Int := toInt32 (-(toInt32 a) - 1)

/-- JS unsigned right shift by zero, a >>> 0. -/
def jsUshr0 (a : Int) : Int := (toUint32 a : Int)

/-- JS bitwise AND. -/
def jsAnd (a b : Int) : Int := toInt32 ((toUint32 a &&& toUint32 b : Nat) : Int)

/-- Translation of ipv4ToInt: split on dots, coerce each part with Number,
require exactly four integer parts in 0..255, and assemble
((p0 << 24) >>> 0) + (p1 << 16) + (p2 << 8) + p3. -/
def ipv4ToInt (ip : String) : Option Int :=
  match (jsSplit ('.') ip).map jsNum with
  | [some a, some b, some c, some d] =>
    if 0 ≤ a ∧ a ≤ 255 ∧ 0 ≤ b ∧ b ≤ 255 ∧ 0 ≤ c ∧ c ≤ 255 ∧ 0 ≤ d ∧ d ≤ 255 then
      some (jsUshr0 (jsShl a 24) + jsShl b 16 + jsShl c 8 + d)
    else none
  | _ => none

/-- The mask expression of cidrContainsIPv4:
bits === 0 ? 0 : (~((1 << (32 - bits)) - 1) >>> 0) >>> 0. -/
def cidrMask (bits : Int) : Int :=
  if bits = 0 then 0 else jsUshr0 (jsUshr0 (jsNot (jsShl 1 (32 - bits) - 1)))

/-- Translation of cidrContainsIPv4.  const [netStr, bitsStr] = cidr.split("/")
takes the first split element and, when absent, leaves bitsStr undefined, whose
Number coercion is NaN (modelled by jsNum = none). -/
def cidrContainsIPv4 (cidr ip : String) : Bool :=
  match ((jsSplit ('/') cidr).get? 1).bind jsNum with
  | none => false
  | some bits =>
    if bits < 0 ∨ 32 < bits then false
    else
      match ipv4ToInt ((jsSplit ('/') cidr).headD ("")), ipv4ToInt ip with
      | some net, some addr => decide (jsAnd net (cidrMask bits) = jsAnd addr (cidrMask bits))
      | _, _ => false

/-- Translation of ipAllowedByCidrs: empty list allows every IP, otherwise
some trimmed CIDR entry must contain the IP. -/
def ipAllowedByCidrs (cidrs : List String) (ip : String) : Bool :=
  if cidrs = [] then true else cidrs.any fun c => cidrContainsIPv4 (jsTrim c) ip

/-- A header value as Node delivers it: a string or an array of strings. -/
inductive HVal where
  | str (s : String)
  | arr (xs : List String)
deriving DecidableEq

/-- A request's header map, keyed by lower-cased header names (Node lower-cases
incoming header names). -/
def Headers := String → Option HVal

/-- JS truthiness of a nullable string: null and the empty string are falsy. -/
def jsTruthy : Option String → Bool
  | none => false
  | some s => s ≠ ""

/-- Translation of getHeaderValue: look the lower-cased name up, return null
for a missing or falsy (empty-string) value, and the first element of an
array value (value[0] ?? null). -/
def getHeaderValue (headers : Headers) (name : String) : Option String :=
  match headers (jsToLower name) with
  | none => none
  | some (.str s) => if s = "" then none else some s
  | some (.arr xs) =>
    match xs.head? with
    | some h => some h
    | none => none

/-- Translation of getClientIpFromRequest: cf-connecting-ip first, then the
first comma-separated entry of x-forwarded-for, then x-real-ip, else null.
Each branch fires when its raw header value is truthy, before any trimming. -/
def getClientIpFromRequest (headers : Headers) : Option String :=
  let cf := getHeaderValue headers ("cf-connecting-ip")
  if jsTruthy cf then some (jsTrim (cf.getD (""))) else
  let xff := getHeaderValue headers ("x-forwarded-for")
  if jsTruthy xff then some (jsTrim ((jsSplit (',') (xff.getD (""))).headD (""))) else
  let xri := getHeaderValue headers ("x-real-ip")
  if jsTruthy xri then some (jsTrim (xri.getD (""))) else
  none

/-- The parsed office settings of the source: allowed ASNs (a JS Set of
numbers, modelled as the list the Set was built from: size === 0 and has
correspond to list emptiness and membership) and allowed CIDR strings. -/
structure OfficeSettings where
  allowedASNs : List Int
  allowedCIDRs : List String
deriving DecidableEq

/-- The module-level settings cache slot: value plus absolute expiry. -/
structure CacheEntry where
  value : OfficeSettings
  expiresAt : Nat
deriving DecidableEq

/-- The process environment fields the gate reads. -/
structure Env where
  supabaseUrl : Option String := none
  viteSupabaseUrl : Option String := none
  supabaseKey : Option String := none
  viteSupabaseKey : Option String := none
  ipinfoToken : Option String := none
  viteIpinfoToken : Option String := none
  officePassSecret : Option String := none

/-- A setting_value as it arrives from the settings store (TS type unknown):
an array (items already coerced by String(item)), a plain string, or any
other value. -/
inductive SVal where
  | arr (items : List String)
  | str (s : String)
  | other

/-- Outcome of JSON.parse on a bracket-shaped settings string: an array
(items coerced by String(item)), a non-array value, or a thrown parse error. -/
inductive JsonArrParse where
  | arrOf (items : List String)
  | nonArray
  | threw

/-- The external, effectful primitives the source calls, threaded as explicit
parameters: HMAC-SHA256 (base64url digest of message under key), base64url
decoding (none models a throw), JSON.parse into an exp-claims object (outer
none models a throw, inner option is the exp field, a JS number modelled as
an integer), and JSON.parse of a bracket-shaped settings string. -/
structure JsOracles where
  hmac : String → String → String
  b64decode : String → Option String
  jsonClaims : String → Option (Option Int)
  jsonList : String → JsonArrParse

/-- First-character test, models s.startsWith for a one-character prefix. -/
def startsWithChar (c : Char) (s : String) : Bool :=
  match s.data with
  | h :: _ => h = c
  | [] => false

/-- Translation of normalizeStringList.  Arrays map to their trimmed non-empty
items; strings trim, and a bracket-prefixed string attempts JSON.parse,
falling back to the single trimmed string when the parse throws or yields a
non-array; other values normalize to []. -/
def normalizeStringList (O : JsOracles) : Option SVal → List String
  | some (.arr items) => (items.map jsTrim).filter (· ≠ "")
  | some (.str s) =>
    let trimmed := jsTrim s
    if trimmed = "" then []
    else if startsWithChar ('[') trimmed then
      match O.jsonList trimmed with
      | .arrOf items => (items.map jsTrim).filter (· ≠ "")
      | .nonArray => [trimmed]
      | .threw => [trimmed]
    else [trimmed]
  | some .other => []
  | none => []

/-- The allowed-ASN pipeline of fetchOfficeSettings: normalize the setting to
a string list, strip non-digits from each item, coerce with Number and keep
the finite results (jsNum returns some exactly for finite integers, so
filterMap jsNum is the map-Number-filter-isFinite pipeline). -/
def computeAllowedASNs (O : JsOracles) (v : Option SVal) : List Int :=
  (normalizeStringList O v).filterMap fun item => jsNum (String.mk (item.data.filter Char.isDigit))

/-- Outcome of the settings-store HTTP round trip: rows of
(setting_key, setting_value), a non-OK response (the source then throws
"Supabase settings fetch failed"), or a throw from fetch or response.json
(network error or malformed body). -/
inductive SupaOutcome where
  | rows (data : List (String × SVal))
  | httpFail
  | threw (msg : String)

/-- Translation of fetchOfficeSettings as explicit state passing over the
module-level settingsCache slot.  Returns the thrown message on the error
path.  SETTINGS_CACHE_TTL_MS = 30000. -/
def fetchOfficeSettings (O : JsOracles) (env : Env) (cache : Option CacheEntry)
    (nowMs : Nat) (outcome : SupaOutcome) : Except String OfficeSettings × Option CacheEntry :=
  let hit := match cache with
    | some c => if nowMs < c.expiresAt then some c.value else none
    | none => none
  match hit with
  | some v => (.ok v, cache)
  | none =>
    if !(jsTruthy (env.supabaseUrl <|> env.viteSupabaseUrl)) then
      (.error ("Server missing SUPABASE_URL"), cache)
    else if !(jsTruthy (env.supabaseKey <|> env.viteSupabaseKey)) then
      (.error ("Server missing SUPABASE_ANON_KEY"), cache)
    else
      match outcome with
      | .threw m => (.error m, cache)
      | .httpFail => (.error ("Supabase settings fetch failed"), cache)
      | .rows data =>
        let asnSetting := data.find? fun r => r.1 = "allowed_asns"
        let cidrSetting := data.find? fun r => r.1 = "allowed_cidrs"
        let value : OfficeSettings :=
          { allowedASNs := computeAllowedASNs O (asnSetting.map (·.2))
            allowedCIDRs := normalizeStringList O (cidrSetting.map (·.2)) }
        (.ok value, some { value := value, expiresAt := nowMs + 30000 })

/-- Outcome of the IPinfo lookup round trip: an OK response carrying the
optional asn field of the parsed body, a non-OK response, or a throw from
fetch or response.json. -/
inductive IpinfoOutcome where
  | httpOk (asnField : Option String)
  | httpFail
  | threw (msg : String)

/-- Models asnStr.replace with the anchored case-insensitive AS prefix
pattern: strip one leading AS/aS/As/as. -/
def stripLeadingAS (s : String) : String :=
  match s.data with
  | a :: b :: rest =>
    if (a = 'A' ∨ a = 'a') ∧ (b = 'S' ∨ b = 's') then String.mk rest else s
  | _ => s

/-- Result of requireOfficeNetwork on its normal return paths. -/
inductive NetResult where
  | allowed (ip : String) (asn : Int)
  | denied (reason : String)
deriving DecidableEq

/-- Translation of requireOfficeNetwork.  The Except layer models an uncaught
throw (only the IPinfo round trip can throw here; the settings fetch is
wrapped in try/catch and converted to a denial carrying the error message). -/
def requireOfficeNetwork (O : JsOracles) (env : Env) (headers : Headers)
    (cache : Option CacheEntry) (nowMs : Nat) (supa : SupaOutcome)
    (ipinfo : IpinfoOutcome) : Except String NetResult × Option CacheEntry :=
  let token := env.ipinfoToken <|> env.viteIpinfoToken
  if !(jsTruthy token) then (.ok (.denied ("Server missing IPINFO_TOKEN")), cache) else
  let ip? := getClientIpFromRequest headers
  if !(jsTruthy ip?) then (.ok (.denied ("Cannot determine client IP")), cache) else
  let ip := ip?.getD ("")
  match fetchOfficeSettings O env cache nowMs supa with
  | (.error m, cache') => (.ok (.denied m), cache')
  | (.ok settings, cache') =>
    if !(ipAllowedByCidrs settings.allowedCIDRs ip) then
      (.ok (.denied ("IP not in office CIDR")), cache')
    else if settings.allowedASNs = [] then (.ok (.allowed ip 0), cache')
    else
      match ipinfo with
      | .threw m => (.error m, cache')
      | .httpFail => (.ok (.denied ("IPinfo lookup failed")), cache')
      | .httpOk asnField =>
        match jsNum (stripLeadingAS (asnField.getD (""))) with
        | none => (.ok (.denied ("ASN missing")), cache')
        | some asn =>
          if settings.allowedASNs ≠ [] ∧ asn ∉ settings.allowedASNs then
            (.ok (.denied ("ASN not allowed")), cache')
          else (.ok (.allowed ip asn), cache')

/-- Translation of verifyOfficePass.  The secret falls back to the empty
string when OFFICE_PASS_SECRET is unset; const [b64, sig] destructures the
first two split segments (extra segments are ignored; a missing second
segment is undefined and falsy, an empty segment is falsy), the body is
base64url-decoded inside try/catch, the HMAC of the decoded body must equal
the signature segment exactly, the body must JSON-parse, and a falsy or
elapsed exp claim rejects. -/
def verifyOfficePass (O : JsOracles) (env : Env) (nowMs : Nat) (token : String) : Bool :=
  match jsSplit ('.') token with
  | b64 :: sig :: _ =>
    if b64 = "" ∨ sig = "" then false
    else
      match O.b64decode b64 with
      | none => false
      | some body =>
        if O.hmac (env.officePassSecret.getD ("")) body ≠ sig then false
        else
          match O.jsonClaims body with
          | none => false
          | some exp? =>
            match exp? with
            | none => false
            | some e => if e = 0 then false else decide (((nowMs / 1000 : Nat) : Int) ≤ e)
  | _ => false

/-- The JSON body the endpoints send: ok plus the optional reason and pass
fields. -/
structure RespBody where
  ok : Bool
  reason : Option String := none
  pass : Option String := none
deriving DecidableEq

/-- An HTTP response: status code and JSON body. -/
structure HttpResponse where
  status : Nat
  body : RespBody
deriving DecidableEq

/-- Translation of the default handler of src/api/attendance/checkin.ts
(the checkin guard endpoint): 405 for non-POST, 403 with reason when the
x-office-pass header fails verification, then the network re-check with 403
carrying the denial reason, 500 carrying a thrown message, 200 on success. -/
def handler (O : JsOracles) (env : Env) (method : Option String) (headers : Headers)
    (cache : Option CacheEntry) (nowMs : Nat) (supa : SupaOutcome)
    (ipinfo : IpinfoOutcome) : HttpResponse × Option CacheEntry :=
  if method ≠ some "POST" then
    ({ status := 405, body := { ok := false, reason := some "Method not allowed" } }, cache)
  else
    let pass := (getHeaderValue headers ("x-office-pass")).getD ("")
    if !(verifyOfficePass O env nowMs pass) then
      ({ status := 403, body := { ok := false, reason := some "Invalid office pass" } }, cache)
    else
      match requireOfficeNetwork O env headers cache nowMs supa ipinfo with
      | (.error m, cache') =>
        ({ status := 500, body := { ok := false, reason := some m } }, cache')
      | (.ok (.denied r), cache') =>
        ({ status := 403, body := { ok := false, reason := some r } }, cache')
      | (.ok (.allowed _ _), cache') =>
        ({ status := 200, body := { ok := true } }, cache')

/-- Translation of the admission-gate GET route (office-gate): the denial
reason is logged server side and the response body carries only ok false;
on allow the minted pass is returned.  The minted pass string is a parameter
because signOfficePass lives in the lib/networkGuard module. -/
def officeGateGET (result : NetResult) (mintedPass : String) : HttpResponse :=
  match result with
  | .denied _ => { status := 403, body := { ok := false } }
  | .allowed _ _ => { status := 200, body := { ok := true, pass := some mintedPass } }

/-- A concrete stand-in HMAC oracle for evaluating the control flow on
closed inputs (the gate treats the HMAC as an opaque keyed function). -/
def hmacDemo : String → String → String := fun key msg => "mac:" ++ key ++ ":" ++ msg

/-- A concrete stand-in base64url decoder (identity) for closed evaluations. -/
def b64Demo : String → Option String := fun s => some s

/-- A concrete stand-in claims parser for closed evaluations: three known
bodies parse, everything else throws. -/
def claimsDemo : String → Option (Option Int) := fun s =>
  if s = "expbody" then some (some 4102444800)
  else if s = "zerobody" then some (some 0)
  else if s = "noexpbody" then some none
  else none

/-- A concrete stand-in bracket-string parser for closed evaluations. -/
def jsonListDemo : String → JsonArrParse := fun _ => .threw

/-- The bundled concrete oracles used by closed witnesses. -/
def demoOracles : JsOracles :=
  { hmac := hmacDemo, b64decode := b64Demo, jsonClaims := claimsDemo, jsonList := jsonListDemo }

example : verifyOfficePass demoOracles { officePassSecret := some "k" } 0 ("expbody.mac:k:expbody") = true := by decide
example : verifyOfficePass demoOracles { officePassSecret := some "k" } 0 ("expbody.mac:x:expbody") = false := by decide
example : verifyOfficePass demoOracles { } 0 ("expbody.mac::expbody") = true := by decide
example :
    (requireOfficeNetwork demoOracles { ipinfoToken := some "t" }
      (fun n => if n = "cf-connecting-ip" then some (.str "10.1.2.3") else none)
      (some { value := { allowedASNs := [2], allowedCIDRs := ["10.0.0.0/8"] }, expiresAt := 1 })
      0 (.rows []) (.httpOk (some "AS1"))).1 = .ok (.denied ("ASN not allowed")) := rfl

/-- Headers for a request whose x-forwarded-for first entry trims to the
empty string while x-real-ip carries a plausible allowed address. -/
def headersEmptyXff : Headers := fun n =>
  if n = "x-forwarded-for" then some (.str ",9.9.9.9")
  else if n = "x-real-ip" then some (.str "203.0.113.42")
  else none

/-- Claim C8: ASN configuration normalization maps AS15169, as15169, 15169
and padded 15169 to the integer 15169; a value with no digits strips to the
empty string, which Number coerces to 0, so it contributes 0 to the
allowed-ASN set instead of being excluded. -/
theorem computeAllowedASNs_normalization (O : JsOracles) :
    computeAllowedASNs O (some (.str ("AS15169"))) = [15169]
    ∧ computeAllowedASNs O (some (.str ("as15169"))) = [15169]
    ∧ computeAllowedASNs O (some (.str ("15169"))) = [15169]
    ∧ computeAllowedASNs O (some (.str (" 15169 "))) = [15169]
    ∧ computeAllowedASNs O (some (.arr ["AS15169", "as15169", "15169", " 15169 "]))
        = [15169, 15169, 15169, 15169]
    ∧ computeAllowedASNs O (some (.str ("ASxyz"))) = [0] :=
  ⟨rfl, rfl, rfl, rfl, rfl, rfl⟩

/-- Claim C8 counterexample: the value ASxyz does not normalize to nothing;
it strips to the empty string, Number of the empty string is the finite
integer 0, and the allowed-ASN set receives the element 0. -/
theorem computeAllowedASNs_ASxyz_contributes_zero :
    computeAllowedASNs demoOracles (some (.str ("ASxyz"))) = [0]
    ∧ (0 : Int) ∈ computeAllowedASNs demoOracles (some (.str ("ASxyz")))
    ∧ computeAllowedASNs demoOracles (some (.str ("ASxyz"))) ≠ [] :=
  ⟨rfl, by decide, by decide⟩

/-- Claim C9: the settings cache slot is preserved exactly on every failing
fetch (missing configuration, thrown fetch, non-OK response, thrown body
parse), and any change to the slot comes from a successful parse, installing
the parsed settings with a fresh 30 s expiry. -/
theorem fetchOfficeSettings_cache_write_only_on_success (O : JsOracles) (env : Env)
    (cache : Option CacheEntry) (nowMs : Nat) (outcome : SupaOutcome) :
    (∀ m, (fetchOfficeSettings O env cache nowMs outcome).1 = .error m →
      (fetchOfficeSettings O env cache nowMs outcome).2 = cache)
    ∧ ((fetchOfficeSettings O env cache nowMs outcome).2 ≠ cache →
      ∃ S, (fetchOfficeSettings O env cache nowMs outcome).1 = .ok S
        ∧ (fetchOfficeSettings O env cache nowMs outcome).2
            = some { value := S, expiresAt := nowMs + 30000 }) := by
  unfold fetchOfficeSettings
  rcases cache with _ | c <;> cases outcome <;>
    repeat' constructor <;> intros <;> simp_all <;> split_ifs at * <;> simp_all

/-- Claim C9 witness: a fetch attempted with no settings-store URL on an
expired cache entry fails and leaves the slot exactly as it was. -/
theorem fetchOfficeSettings_cache_witness :
    (fetchOfficeSettings demoOracles { } (some { value := { allowedASNs := [], allowedCIDRs := [] }, expiresAt := 0 }) 5 (.rows [])).2
      = some { value := { allowedASNs := [], allowedCIDRs := [] }, expiresAt := 0 } :=
  (fetchOfficeSettings_cache_write_only_on_success demoOracles { }
    (some { value := { allowedASNs := [], allowedCIDRs := [] }, expiresAt := 0 }) 5 (.rows [])).1
    ("Server missing SUPABASE_URL") rfl

/-- Claim C10: when cf-connecting-ip is not usable and x-forwarded-for is
present (truthy) but its first comma-separated entry trims to the empty
string, getClientIpFromRequest returns the empty string without consulting
x-real-ip, and the network check then denies with Cannot determine client IP
whatever the rest of the headers and configuration hold. -/
theorem clientIp_empty_xff_entry_denies (O : JsOracles) (env : Env) (headers : Headers)
    (cache : Option CacheEntry) (nowMs : Nat) (supa : SupaOutcome) (ipinfo : IpinfoOutcome)
    (xff : String)
    (hcf : jsTruthy (getHeaderValue headers ("cf-connecting-ip")) = false)
    (hxff : getHeaderValue headers ("x-forwarded-for") = some xff)
    (hne : xff ≠ "")
    (hfirst : jsTrim (((jsSplit (',') xff).head?).getD ("")) = "")
    (htok : jsTruthy (env.ipinfoToken <|> env.viteIpinfoToken) = true) :
    getClientIpFromRequest headers = some ""
    ∧ (requireOfficeNetwork O env headers cache nowMs supa ipinfo).1
        = .ok (.denied ("Cannot determine client IP")) := by
  have hx : jsTruthy (some xff) = true := by simp [jsTruthy, hne]
  have hip : getClientIpFromRequest headers = some "" := by
    unfold getClientIpFromRequest
    simp [hcf, hxff, hx, hfirst]
  refine ⟨hip, ?_⟩
  unfold requireOfficeNetwork
  simp only [htok, hip]
  simp [jsTruthy]

/-- Claim C10 witness: with x-forwarded-for set to a value whose first entry
is empty and x-real-ip set to an address, the resolver yields the empty
string and the network check denies. -/
theorem clientIp_empty_xff_entry_denies_witness :
    getClientIpFromRequest headersEmptyXff = some ""
    ∧ (requireOfficeNetwork demoOracles { ipinfoToken := some "t" } headersEmptyXff none 0 (.rows []) .httpFail).1
        = .ok (.denied ("Cannot determine client IP")) :=
  clientIp_empty_xff_entry_denies demoOracles { ipinfoToken := some "t" } headersEmptyXff
    none 0 (.rows []) .httpFail (",9.9.9.9") (by decide) rfl (by decide) (by decide) rfl

/-- The ASN the source extracts from an IPinfo round trip: the parsed asn
field of an OK response, nothing otherwise. -/
def lookupAsn : IpinfoOutcome → Option Int
  | .httpOk f => jsNum (stripLeadingAS (f.getD ("")))
  | _ => none

/-- Headers carrying a CDN-resolved client IP inside 10.0.0.0/8. -/
def headersOfficeIp : Headers := fun n =>
  if n = "cf-connecting-ip" then some (.str "10.1.2.3") else none

/-- Claim C7: when an ASN restriction is configured, the lookup outcome is
consulted and its failures are not skipped: a non-2xx response denies with
IPinfo lookup failed, an unparseable ASN denies with ASN missing, and a
thrown network error propagates uncaught; only an empty ASN restriction
bypasses the lookup entirely. -/
theorem requireOfficeNetwork_asn_lookup_failures (O : JsOracles) (env : Env)
    (headers : Headers) (cache cache' : Option CacheEntry) (nowMs : Nat)
    (supa : SupaOutcome) (S : OfficeSettings) (ip : String)
    (htok : jsTruthy (env.ipinfoToken <|> env.viteIpinfoToken) = true)
    (hip : getClientIpFromRequest headers = some ip)
    (hne : ip ≠ "")
    (hfetch : fetchOfficeSettings O env cache nowMs supa = (.ok S, cache'))
    (hcidr : ipAllowedByCidrs S.allowedCIDRs ip = true) :
    (S.allowedASNs = [] → ∀ ipinfo,
      (requireOfficeNetwork O env headers cache nowMs supa ipinfo).1 = .ok (.allowed ip 0))
    ∧ (S.allowedASNs ≠ [] →
      (requireOfficeNetwork O env headers cache nowMs supa .httpFail).1
          = .ok (.denied ("IPinfo lookup failed"))
      ∧ (∀ f, jsNum (stripLeadingAS (f.getD (""))) = none →
          (requireOfficeNetwork O env headers cache nowMs supa (.httpOk f)).1
            = .ok (.denied ("ASN missing")))
      ∧ (∀ m, (requireOfficeNetwork O env headers cache nowMs supa (.threw m)).1 = .error m)) := by
  have hx : jsTruthy (some ip) = true := by simp [jsTruthy, hne]
  constructor
  · intro hempty ipinfo
    unfold requireOfficeNetwork
    simp [htok, hip, hx, hfetch, hcidr, hempty]
  · intro hne'
    refine ⟨?_, fun f hf => ?_, fun m => ?_⟩ <;>
      · unfold requireOfficeNetwork
        simp [htok, hip, hx, hfetch, hcidr, hne']
        try simp [hf]

/-- Claim C7 counterexample: with an ASN restriction configured and every
other configured check passing (the CIDR list is empty, so the CIDR category
allows), a failed lookup is not treated as ASN unknown: the evaluation
denies with IPinfo lookup failed instead of relying on the other checks. -/
theorem requireOfficeNetwork_lookup_failure_denies :
    ipAllowedByCidrs [] ("10.1.2.3") = true
    ∧ (requireOfficeNetwork demoOracles { ipinfoToken := some "t" } headersOfficeIp
        (some { value := { allowedASNs := [1], allowedCIDRs := [] }, expiresAt := 1 })
        0 (.rows []) .httpFail).1 = .ok (.denied ("IPinfo lookup failed")) :=
  ⟨by decide, rfl⟩

/-- Claim C7 witness: with an ASN restriction configured, an OK lookup whose
asn field does not parse denies with ASN missing. -/
theorem requireOfficeNetwork_asn_missing_witness :
    (requireOfficeNetwork demoOracles { ipinfoToken := some "t" } headersOfficeIp
        (some { value := { allowedASNs := [1], allowedCIDRs := [] }, expiresAt := 1 })
        0 (.rows []) (.httpOk (some "ASxyz"))).1 = .ok (.denied ("ASN missing")) :=
  ((requireOfficeNetwork_asn_lookup_failures demoOracles { ipinfoToken := some "t" }
      headersOfficeIp
      (some { value := { allowedASNs := [1], allowedCIDRs := [] }, expiresAt := 1 })
      (some { value := { allowedASNs := [1], allowedCIDRs := [] }, expiresAt := 1 })
      0 (.rows []) { allowedASNs := [1], allowedCIDRs := [] } ("10.1.2.3")
      rfl rfl (by decide) rfl (by decide)).2 (by decide)).2.1 (some "ASxyz") (by decide)

/-- Claim C1: the network evaluation has no wildcard or exact-IP category.
Given an available lookup token, a determinable client IP and successfully
fetched settings, it allows exactly when every configured category passes:
the CIDR category (empty list, or the IP contained in some entry) and the
ASN category (empty set, or the looked-up parsed ASN a member); with both
categories empty it therefore defaults to allow. -/
theorem requireOfficeNetwork_allows_iff_all_categories (O : JsOracles) (env : Env)
    (headers : Headers) (cache cache' : Option CacheEntry) (nowMs : Nat)
    (supa : SupaOutcome) (ipinfo : IpinfoOutcome) (S : OfficeSettings) (ip : String)
    (htok : jsTruthy (env.ipinfoToken <|> env.viteIpinfoToken) = true)
    (hip : getClientIpFromRequest headers = some ip)
    (hne : ip ≠ "")
    (hfetch : fetchOfficeSettings O env cache nowMs supa = (.ok S, cache')) :
    (∃ a, (requireOfficeNetwork O env headers cache nowMs supa ipinfo).1
        = .ok (.allowed ip a))
    ↔ (ipAllowedByCidrs S.allowedCIDRs ip = true
       ∧ (S.allowedASNs = [] ∨ ∃ a, lookupAsn ipinfo = some a ∧ a ∈ S.allowedASNs)) := by
  have hx : jsTruthy (some ip) = true := by simp [jsTruthy, hne]
  unfold requireOfficeNetwork
  simp only [htok, hip, hx, hfetch, Bool.not_true, Bool.false_eq_true, if_false]
  by_cases hcidr : ipAllowedByCidrs S.allowedCIDRs ip = true
  · simp only [hcidr, true_and]
    by_cases hasn : S.allowedASNs = []
    · simp [hasn, hcidr]
    · simp only [hasn, if_neg (by simpa using hasn)]
      cases ipinfo with
      | threw m => simp [lookupAsn, hasn, hcidr]
      | httpFail => simp [lookupAsn, hasn, hcidr]
      | httpOk f =>
        simp only [lookupAsn]
        cases hj : jsNum (stripLeadingAS (f.getD (""))) with
        | none => simp [hasn, hcidr, hj]
        | some a =>
          by_cases hmem : a ∈ S.allowedASNs
          · simp [hasn, hcidr, hj, hmem]
          · simp [hasn, hcidr, hj, hmem]
  · have hcidr' : ipAllowedByCidrs S.allowedCIDRs ip = false := by
      simpa using hcidr
    simp [hcidr']

/-- Claim C1 counterexample: the reference's OR-across-categories and
wildcard semantics both fail on this code.  With a CIDR entry matching the
request IP (one configured category matches) but the looked-up ASN outside
the configured set, the evaluation denies; and a configured wildcard CIDR
entry never matches, so it restricts instead of allowing everything. -/
theorem requireOfficeNetwork_or_wildcard_counterexample :
    ipAllowedByCidrs ["10.0.0.0/8"] ("10.1.2.3") = true
    ∧ (requireOfficeNetwork demoOracles { ipinfoToken := some "t" } headersOfficeIp
        (some { value := { allowedASNs := [2], allowedCIDRs := ["10.0.0.0/8"] }, expiresAt := 1 })
        0 (.rows []) (.httpOk (some "AS1"))).1 = .ok (.denied ("ASN not allowed"))
    ∧ (requireOfficeNetwork demoOracles { ipinfoToken := some "t" } headersOfficeIp
        (some { value := { allowedASNs := [], allowedCIDRs := ["*"] }, expiresAt := 1 })
        0 (.rows []) (.httpOk (some "AS1"))).1 = .ok (.denied ("IP not in office CIDR")) :=
  ⟨by decide, rfl, rfl⟩

/-- Claim C1 witness: with both categories empty the evaluation defaults to
allow. -/
theorem requireOfficeNetwork_default_allow_witness :
    ∃ a, (requireOfficeNetwork demoOracles { ipinfoToken := some "t" } headersOfficeIp
        (some { value := { allowedASNs := [], allowedCIDRs := [] }, expiresAt := 1 })
        0 (.rows []) .httpFail).1 = .ok (.allowed ("10.1.2.3") a) :=
  (requireOfficeNetwork_allows_iff_all_categories demoOracles { ipinfoToken := some "t" }
      headersOfficeIp
      (some { value := { allowedASNs := [], allowedCIDRs := [] }, expiresAt := 1 })
      (some { value := { allowedASNs := [], allowedCIDRs := [] }, expiresAt := 1 })
      0 (.rows []) .httpFail { allowedASNs := [], allowedCIDRs := [] } ("10.1.2.3")
      rfl rfl (by decide) rfl).mpr ⟨by decide, Or.inl rfl⟩

theorem handler_post_badpass (O : JsOracles) (env : Env) (headers : Headers)
    (cache : Option CacheEntry) (nowMs : Nat) (supa : SupaOutcome) (ipinfo : IpinfoOutcome)
    (hv : verifyOfficePass O env nowMs ((getHeaderValue headers ("x-office-pass")).getD ("")) = false) :
    handler O env (some "POST") headers cache nowMs supa ipinfo
      = ({ status := 403, body := { ok := false, reason := some "Invalid office pass" } }, cache) := by
  unfold handler
  simp [hv]

theorem handler_post_denied (O : JsOracles) (env : Env) (headers : Headers)
    (cache cache' : Option CacheEntry) (nowMs : Nat) (supa : SupaOutcome)
    (ipinfo : IpinfoOutcome) (r : String)
    (hv : verifyOfficePass O env nowMs ((getHeaderValue headers ("x-office-pass")).getD ("")) = true)
    (hnet : requireOfficeNetwork O env headers cache nowMs supa ipinfo = (.ok (.denied r), cache')) :
    handler O env (some "POST") headers cache nowMs supa ipinfo
      = ({ status := 403, body := { ok := false, reason := some r } }, cache') := by
  unfold handler
  simp [hv, hnet]

theorem handler_post_allowed (O : JsOracles) (env : Env) (headers : Headers)
    (cache cache' : Option CacheEntry) (nowMs : Nat) (supa : SupaOutcome)
    (ipinfo : IpinfoOutcome) (ip : String) (a : Int)
    (hv : verifyOfficePass O env nowMs ((getHeaderValue headers ("x-office-pass")).getD ("")) = true)
    (hnet : requireOfficeNetwork O env headers cache nowMs supa ipinfo = (.ok (.allowed ip a), cache')) :
    handler O env (some "POST") headers cache nowMs supa ipinfo
      = ({ status := 200, body := { ok := true } }, cache') := by
  unfold handler
  simp [hv, hnet]

theorem handler_post_threw (O : JsOracles) (env : Env) (headers : Headers)
    (cache cache' : Option CacheEntry) (nowMs : Nat) (supa : SupaOutcome)
    (ipinfo : IpinfoOutcome) (m : String)
    (hv : verifyOfficePass O env nowMs ((getHeaderValue headers ("x-office-pass")).getD ("")) = true)
    (hnet : requireOfficeNetwork O env headers cache nowMs supa ipinfo = (.error m, cache')) :
    handler O env (some "POST") headers cache nowMs supa ipinfo
      = ({ status := 500, body := { ok := false, reason := some m } }, cache') := by
  unfold handler
  simp [hv, hnet]

/-- Claim C2: the checkin guard endpoint returns 200 only when the presented
x-office-pass verifies and a fresh network check of the current request
succeeds; with a verified pass but a denied network check it returns 403;
and with a pass that fails verification it returns 403 whatever the network
check would say. -/
theorem handler_requires_pass_and_fresh_check (O : JsOracles) (env : Env)
    (headers : Headers) (cache : Option CacheEntry) (nowMs : Nat)
    (supa : SupaOutcome) (ipinfo : IpinfoOutcome) :
    ((handler O env (some "POST") headers cache nowMs supa ipinfo).1.status = 200 →
      verifyOfficePass O env nowMs ((getHeaderValue headers ("x-office-pass")).getD ("")) = true
      ∧ ∃ ip a, (requireOfficeNetwork O env headers cache nowMs supa ipinfo).1
          = .ok (.allowed ip a))
    ∧ (∀ r, verifyOfficePass O env nowMs ((getHeaderValue headers ("x-office-pass")).getD ("")) = true →
        (requireOfficeNetwork O env headers cache nowMs supa ipinfo).1 = .ok (.denied r) →
        (handler O env (some "POST") headers cache nowMs supa ipinfo).1.status = 403)
    ∧ (verifyOfficePass O env nowMs ((getHeaderValue headers ("x-office-pass")).getD ("")) = false →
        (handler O env (some "POST") headers cache nowMs supa ipinfo).1.status = 403) := by
  refine ⟨?_, ?_, ?_⟩
  · intro h200
    by_cases hv : verifyOfficePass O env nowMs ((getHeaderValue headers ("x-office-pass")).getD ("")) = true
    · refine ⟨hv, ?_⟩
      rcases hnet : requireOfficeNetwork O env headers cache nowMs supa ipinfo with ⟨r, c'⟩
      cases r with
      | error m => rw [handler_post_threw O env headers cache c' nowMs supa ipinfo m hv hnet] at h200; cases h200
      | ok nr =>
        cases nr with
        | denied reason =>
          rw [handler_post_denied O env headers cache c' nowMs supa ipinfo reason hv hnet] at h200
          cases h200
        | allowed ip a => exact ⟨ip, a, rfl⟩
    · rw [handler_post_badpass O env headers cache nowMs supa ipinfo (by simpa using hv)] at h200
      cases h200
  · intro r hv hnet
    rcases hpair : requireOfficeNetwork O env headers cache nowMs supa ipinfo with ⟨r', c'⟩
    have : r' = .ok (.denied r) := by rw [hpair] at hnet; exact hnet
    rw [handler_post_denied O env headers cache c' nowMs supa ipinfo r hv (by rw [hpair, this])]
  · intro hv
    rw [handler_post_badpass O env headers cache nowMs supa ipinfo hv]

/-- Claim C2 witness: a request whose pass header is absent fails
verification and the guard answers 403. -/
theorem handler_requires_pass_witness :
    (handler demoOracles { ipinfoToken := some "t", officePassSecret := some "k" }
      (some "POST") headersOfficeIp none 0 (.rows []) .httpFail).1.status = 403 :=
  (handler_requires_pass_and_fresh_check demoOracles
    { ipinfoToken := some "t", officePassSecret := some "k" }
    headersOfficeIp none 0 (.rows []) .httpFail).2.2 (by decide)

/-- Headers presenting no pass, with a client IP outside the office CIDR. -/
def headersNoPass : Headers := fun n =>
  if n = "cf-connecting-ip" then some (.str "9.9.9.9") else none

/-- Headers presenting the demo pass signed under key k, with a client IP
outside the office CIDR. -/
def headersPassBadIp : Headers := fun n =>
  if n = "x-office-pass" then some (.str "expbody.mac:k:expbody")
  else if n = "cf-connecting-ip" then some (.str "9.9.9.9")
  else none

/-- Claim C3: the admission-gate route answers every denial with 403 and the
bare body ok false (no pass, no reason, identical for all denial causes);
the pages-API guard handler also answers denials with 403, ok false and no
pass, but its body carries a reason string naming the denial cause, so two
denials for different reasons get different bodies there. -/
theorem deny_responses_shape (r : String) (p : String) (O : JsOracles) (env : Env)
    (headers : Headers) (cache cache' : Option CacheEntry) (nowMs : Nat)
    (supa : SupaOutcome) (ipinfo : IpinfoOutcome) :
    officeGateGET (.denied r) p = { status := 403, body := { ok := false } }
    ∧ (verifyOfficePass O env nowMs ((getHeaderValue headers ("x-office-pass")).getD ("")) = false →
        (handler O env (some "POST") headers cache nowMs supa ipinfo).1
          = { status := 403, body := { ok := false, reason := some "Invalid office pass" } })
    ∧ (verifyOfficePass O env nowMs ((getHeaderValue headers ("x-office-pass")).getD ("")) = true →
        requireOfficeNetwork O env headers cache nowMs supa ipinfo = (.ok (.denied r), cache') →
        (handler O env (some "POST") headers cache nowMs supa ipinfo).1
          = { status := 403, body := { ok := false, reason := some r } }) := by
  refine ⟨rfl, fun hv => ?_, fun hv hnet => ?_⟩
  · rw [handler_post_badpass O env headers cache nowMs supa ipinfo hv]
  · rw [handler_post_denied O env headers cache cache' nowMs supa ipinfo r hv hnet]

/-- Claim C3 counterexample: two requests denied by the guard handler for
different reasons (invalid pass, IP outside the office CIDR) receive
different 403 bodies, each naming its denial cause. -/
theorem deny_responses_differ_counterexample :
    (handler demoOracles { ipinfoToken := some "t", officePassSecret := some "k" }
        (some "POST") headersNoPass
        (some { value := { allowedASNs := [], allowedCIDRs := ["10.0.0.0/8"] }, expiresAt := 1 })
        0 (.rows []) .httpFail).1
      = { status := 403, body := { ok := false, reason := some "Invalid office pass" } }
    ∧ (handler demoOracles { ipinfoToken := some "t", officePassSecret := some "k" }
        (some "POST") headersPassBadIp
        (some { value := { allowedASNs := [], allowedCIDRs := ["10.0.0.0/8"] }, expiresAt := 1 })
        0 (.rows []) .httpFail).1
      = { status := 403, body := { ok := false, reason := some "IP not in office CIDR" } }
    ∧ ({ ok := false, reason := some "Invalid office pass" } : RespBody)
        ≠ { ok := false, reason := some "IP not in office CIDR" } :=
  ⟨rfl, rfl, by decide⟩

/-- Claim C3 witness: an admission-gate denial body is the bare ok false
with no pass, whatever the logged reason was. -/
theorem deny_responses_shape_witness :
    officeGateGET (.denied ("IP not in office CIDR")) ("minted")
      = { status := 403, body := { ok := false } } :=
  (deny_responses_shape ("IP not in office CIDR") ("minted") demoOracles { } headersNoPass
    none none 0 (.rows []) .httpFail).1

theorem splitChar_ne_nil (sep : Char) (l : List Char) : splitChar sep l ≠ [] := by
  cases l with
  | nil => simp [splitChar]
  | cons c rest =>
    unfold splitChar
    rcases splitChar sep rest with _ | ⟨h1, t1⟩ <;> split_ifs <;> simp

theorem splitChar_not_mem (sep : Char) (l : List Char) (h : sep ∉ l) :
    splitChar sep l = [l] := by
  induction l with
  | nil => rfl
  | cons c rest ih =>
    have hc : ¬(c = sep) := fun e => h (e ▸ List.mem_cons_self c rest)
    have hrest : sep ∉ rest := fun hm => h (List.mem_cons_of_mem c hm)
    unfold splitChar
    rw [ih hrest]
    simp [hc]

theorem splitChar_append (sep : Char) (l1 l2 : List Char) (h : sep ∉ l1) :
    splitChar sep (l1 ++ sep :: l2) = l1 :: splitChar sep l2 := by
  induction l1 with
  | nil =>
    simp only [List.nil_append]
    rw [splitChar]
    rcases hs : splitChar sep l2 with _ | ⟨h1, t1⟩
    · exact absurd hs (splitChar_ne_nil sep l2)
    · simp
  | cons c rest ih =>
    have hc : ¬(c = sep) := fun e => h (e ▸ List.mem_cons_self c rest)
    have hrest : sep ∉ rest := fun hm => h (List.mem_cons_of_mem c hm)
    simp only [List.cons_append]
    rw [splitChar, ih hrest]
    simp [hc]

theorem jsSplit_two (b64 sig : String) (h1 : ('.') ∉ b64.data) (h2 : ('.') ∉ sig.data) :
    jsSplit ('.') (b64 ++ "." ++ sig) = [b64, sig] := by
  unfold jsSplit
  have hd : (b64 ++ "." ++ sig).data = b64.data ++ ('.') :: sig.data := by
    simp
  rw [hd, splitChar_append ('.') b64.data sig.data h1, splitChar_not_mem ('.') sig.data h2]
  rfl

/-- Claim C4: verifyOfficePass fails when the body or signature segment is
missing or empty, when base64url decoding of the body throws, when the
supplied signature differs from the recomputed HMAC (so altering the
signature of an accepted token makes it fail), and when the decoded body
does not JSON-parse; for an otherwise well-formed token it succeeds iff the
exp claim is present and non-zero (a zero exp is falsy and treated like an
absent one) and floor(now/1000) has not passed it. -/
theorem verifyOfficePass_stepwise :
    (∀ (O : JsOracles) (env : Env) (nowMs : Nat) (token b64 : String),
      jsSplit ('.') token = [b64] →
      verifyOfficePass O env nowMs token = false)
    ∧ (∀ (O : JsOracles) (env : Env) (nowMs : Nat) (token b64 sig : String)
        (rest : List String),
      jsSplit ('.') token = b64 :: sig :: rest →
      (b64 = "" ∨ sig = "") →
      verifyOfficePass O env nowMs token = false)
    ∧ (∀ (O : JsOracles) (env : Env) (nowMs : Nat) (token b64 sig : String)
        (rest : List String),
      jsSplit ('.') token = b64 :: sig :: rest →
      O.b64decode b64 = none →
      verifyOfficePass O env nowMs token = false)
    ∧ (∀ (O : JsOracles) (env : Env) (nowMs : Nat) (b64 sig sig' : String),
      ('.') ∉ b64.data → ('.') ∉ sig.data → ('.') ∉ sig'.data →
      verifyOfficePass O env nowMs (b64 ++ "." ++ sig) = true →
      sig' ≠ sig →
      verifyOfficePass O env nowMs (b64 ++ "." ++ sig') = false)
    ∧ (∀ (O : JsOracles) (env : Env) (nowMs : Nat) (token b64 sig body : String)
        (rest : List String),
      jsSplit ('.') token = b64 :: sig :: rest →
      O.b64decode b64 = some body →
      O.jsonClaims body = none →
      verifyOfficePass O env nowMs token = false)
    ∧ (∀ (O : JsOracles) (env : Env) (nowMs : Nat) (token b64 sig body : String)
        (rest : List String) (exp? : Option Int),
      jsSplit ('.') token = b64 :: sig :: rest →
      b64 ≠ "" →
      sig ≠ "" →
      O.b64decode b64 = some body →
      O.hmac (env.officePassSecret.getD ("")) body = sig →
      O.jsonClaims body = some exp? →
      (verifyOfficePass O env nowMs token = true
        ↔ ∃ e, exp? = some e ∧ e ≠ 0 ∧ ((nowMs / 1000 : Nat) : Int) ≤ e)) := by
  refine ⟨?_, ?_, ?_, ?_, ?_, ?_⟩
  · intro O env nowMs token b64 hsp
    unfold verifyOfficePass
    rw [hsp]
  · intro O env nowMs token b64 sig rest hsp h
    unfold verifyOfficePass
    rw [hsp]
    exact if_pos h
  · intro O env nowMs token b64 sig rest hsp hdec
    unfold verifyOfficePass
    rw [hsp]
    dsimp only
    by_cases hg : b64 = "" ∨ sig = ""
    · exact if_pos hg
    · rw [if_neg hg, hdec]
  · intro O env nowMs b64 sig sig' h1 h2 h3 hw hne
    have hsp := jsSplit_two b64 sig h1 h2
    have hsp' := jsSplit_two b64 sig' h1 h3
    unfold verifyOfficePass at hw ⊢
    rw [hsp] at hw
    rw [hsp']
    dsimp only at hw ⊢
    by_cases hg : b64 = "" ∨ sig = ""
    · rw [if_pos hg] at hw
      cases hw
    · rw [if_neg hg] at hw
      by_cases hg' : b64 = "" ∨ sig' = ""
      · exact if_pos hg'
      · rw [if_neg hg']
        cases hdec : O.b64decode b64 with
        | none =>
          rw [hdec] at hw
        | some body =>
          rw [hdec] at hw
          dsimp only at hw ⊢
          by_cases hm : O.hmac (env.officePassSecret.getD ("")) body ≠ sig
          · rw [if_pos hm] at hw
            cases hw
          · have hmac : O.hmac (env.officePassSecret.getD ("")) body = sig := not_not.mp hm
            have hm' : O.hmac (env.officePassSecret.getD ("")) body ≠ sig' := by
              rw [hmac]
              exact fun e => hne e.symm
            rw [if_pos hm']
  · intro O env nowMs token b64 sig body rest hsp hdec hparse
    unfold verifyOfficePass
    rw [hsp]
    dsimp only
    by_cases hg : b64 = "" ∨ sig = ""
    · exact if_pos hg
    · rw [if_neg hg, hdec]
      dsimp only
      by_cases hm : O.hmac (env.officePassSecret.getD ("")) body ≠ sig
      · rw [if_pos hm]
      · rw [if_neg hm, hparse]
  · intro O env nowMs token b64 sig body rest exp? hsp hb hsne hdec hmac hparse
    unfold verifyOfficePass
    rw [hsp]
    have hg : ¬(b64 = "" ∨ sig = "") := by
      rintro (h | h)
      · exact hb h
      · exact hsne h
    dsimp only
    rw [if_neg hg, hdec]
    dsimp only
    have hm : ¬(O.hmac (env.officePassSecret.getD ("")) body ≠ sig) := fun h => h hmac
    rw [if_neg hm, hparse]
    cases exp? with
    | none => simp
    | some e =>
      by_cases he : e = 0
      · simp [he]
      · simp [he]

/-- Claim C4 counterexample: a token whose every verification step succeeds
and whose exp claim is present (value 0) and not elapsed at time 0 is still
rejected, because the code treats the falsy exp value 0 like an absent one. -/
theorem verifyOfficePass_exp_zero_counterexample :
    verifyOfficePass demoOracles { } 0 ("zerobody.mac::zerobody") = false
    ∧ demoOracles.b64decode ("zerobody") = some ("zerobody")
    ∧ demoOracles.hmac ("") ("zerobody") = "mac::zerobody"
    ∧ demoOracles.jsonClaims ("zerobody") = some (some 0)
    ∧ ¬(((0 / 1000 : Nat) : Int) > 0) :=
  ⟨rfl, rfl, rfl, rfl, by decide⟩

/-- Claim C4 witness: a well-formed demo token with a future exp verifies,
and the same token rejects once its exp has elapsed. -/
theorem verifyOfficePass_stepwise_witness :
    verifyOfficePass demoOracles { officePassSecret := some "k" } 0 ("expbody.mac:k:expbody") = true :=
  (verifyOfficePass_stepwise.2.2.2.2.2 demoOracles { officePassSecret := some "k" } 0
      ("expbody.mac:k:expbody") ("expbody") ("mac:k:expbody") ("expbody") []
      (some 4102444800) (by decide) (by decide) (by decide) rfl rfl rfl).mpr
    ⟨4102444800, rfl, by decide, by decide⟩

theorem requireOfficeNetwork_denied_of_missing_settings_env (O : JsOracles) (env : Env)
    (headers : Headers) (cache : Option CacheEntry) (nowMs : Nat) (supa : SupaOutcome)
    (ipinfo : IpinfoOutcome)
    (henv : jsTruthy (env.supabaseUrl <|> env.viteSupabaseUrl) = false
      ∨ jsTruthy (env.supabaseKey <|> env.viteSupabaseKey) = false)
    (hmiss : ∀ c, cache = some c → c.expiresAt ≤ nowMs) :
    ∃ m c2, requireOfficeNetwork O env headers cache nowMs supa ipinfo
      = (.ok (.denied m), c2) := by
  have hfetch : ∃ m, fetchOfficeSettings O env cache nowMs supa = (.error m, cache) := by
    rcases henv with h | h
    · rcases cache with _ | c
      · exact ⟨"Server missing SUPABASE_URL", by unfold fetchOfficeSettings; simp [h]⟩
      · exact ⟨"Server missing SUPABASE_URL", by
          unfold fetchOfficeSettings
          simp [Nat.not_lt.mpr (hmiss c rfl), h]⟩
    · by_cases hu : jsTruthy (env.supabaseUrl <|> env.viteSupabaseUrl) = true
      · rcases cache with _ | c
        · exact ⟨"Server missing SUPABASE_ANON_KEY", by
            unfold fetchOfficeSettings
            simp [hu, h]⟩
        · exact ⟨"Server missing SUPABASE_ANON_KEY", by
            unfold fetchOfficeSettings
            simp [Nat.not_lt.mpr (hmiss c rfl), hu, h]⟩
      · have hu' : jsTruthy (env.supabaseUrl <|> env.viteSupabaseUrl) = false := by
          simpa using hu
        rcases cache with _ | c
        · exact ⟨"Server missing SUPABASE_URL", by unfold fetchOfficeSettings; simp [hu']⟩
        · exact ⟨"Server missing SUPABASE_URL", by
            unfold fetchOfficeSettings
            simp [Nat.not_lt.mpr (hmiss c rfl), hu']⟩
  obtain ⟨m, hf⟩ := hfetch
  by_cases htok : jsTruthy (env.ipinfoToken <|> env.viteIpinfoToken) = true
  · by_cases hip : jsTruthy (getClientIpFromRequest headers) = true
    · refine ⟨m, cache, ?_⟩
      unfold requireOfficeNetwork
      simp [htok, hip, hf]
    · refine ⟨"Cannot determine client IP", cache, ?_⟩
      have hip' : jsTruthy (getClientIpFromRequest headers) = false := by simpa using hip
      unfold requireOfficeNetwork
      simp [htok, hip']
  · refine ⟨"Server missing IPINFO_TOKEN", cache, ?_⟩
    have htok' : jsTruthy (env.ipinfoToken <|> env.viteIpinfoToken) = false := by
      simpa using htok
    unfold requireOfficeNetwork
    simp [htok']

/-- Claim C6: a missing ASN-lookup token or (on a settings-cache miss) a
missing settings-store URL or credential makes the guard endpoint answer
403 rather than degrade to allow; but a missing pass-signing secret does not
fail the request: verification silently proceeds with the empty-string key,
so any token HMAC-signed under the empty key still verifies. -/
theorem missing_env_fails_closed_except_pass_secret :
    (∀ (O : JsOracles) (env : Env) (headers : Headers) (cache : Option CacheEntry)
        (nowMs : Nat) (supa : SupaOutcome) (ipinfo : IpinfoOutcome),
      jsTruthy (env.ipinfoToken <|> env.viteIpinfoToken) = false →
      (handler O env (some "POST") headers cache nowMs supa ipinfo).1.status = 403)
    ∧ (∀ (O : JsOracles) (env : Env) (headers : Headers) (cache : Option CacheEntry)
        (nowMs : Nat) (supa : SupaOutcome) (ipinfo : IpinfoOutcome),
      (jsTruthy (env.supabaseUrl <|> env.viteSupabaseUrl) = false
        ∨ jsTruthy (env.supabaseKey <|> env.viteSupabaseKey) = false) →
      (∀ c, cache = some c → c.expiresAt ≤ nowMs) →
      (handler O env (some "POST") headers cache nowMs supa ipinfo).1.status = 403)
    ∧ (∀ (O : JsOracles) (env : Env) (nowMs : Nat) (b64 body : String),
      env.officePassSecret = none →
      ('.') ∉ b64.data → b64 ≠ "" →
      ('.') ∉ (O.hmac ("") body).data → O.hmac ("") body ≠ "" →
      O.b64decode b64 = some body →
      (∃ e, O.jsonClaims body = some (some e) ∧ e ≠ 0 ∧ ((nowMs / 1000 : Nat) : Int) ≤ e) →
      verifyOfficePass O env nowMs (b64 ++ "." ++ O.hmac ("") body) = true) := by
  refine ⟨?_, ?_, ?_⟩
  · intro O env headers cache nowMs supa ipinfo htok
    have hnet : requireOfficeNetwork O env headers cache nowMs supa ipinfo
        = (.ok (.denied ("Server missing IPINFO_TOKEN")), cache) := by
      unfold requireOfficeNetwork
      simp [htok]
    by_cases hv : verifyOfficePass O env nowMs ((getHeaderValue headers ("x-office-pass")).getD ("")) = true
    · rw [handler_post_denied O env headers cache cache nowMs supa ipinfo _ hv hnet]
    · have hv' : verifyOfficePass O env nowMs ((getHeaderValue headers ("x-office-pass")).getD ("")) = false := by
        simpa using hv
      rw [handler_post_badpass O env headers cache nowMs supa ipinfo hv']
  · intro O env headers cache nowMs supa ipinfo henv hmiss
    obtain ⟨m, c2, hnet⟩ :=
      requireOfficeNetwork_denied_of_missing_settings_env O env headers cache nowMs supa ipinfo henv hmiss
    by_cases hv : verifyOfficePass O env nowMs ((getHeaderValue headers ("x-office-pass")).getD ("")) = true
    · rw [handler_post_denied O env headers cache c2 nowMs supa ipinfo m hv hnet]
    · have hv' : verifyOfficePass O env nowMs ((getHeaderValue headers ("x-office-pass")).getD ("")) = false := by
        simpa using hv
      rw [handler_post_badpass O env headers cache nowMs supa ipinfo hv']
  · rintro O env nowMs b64 body hsec hb1 hbne hs1 hsne hdec ⟨e, hparse, he0, hle⟩
    have hsp := jsSplit_two b64 (O.hmac ("") body) hb1 hs1
    unfold verifyOfficePass
    rw [hsp]
    dsimp only
    have hg : ¬(b64 = "" ∨ O.hmac ("") body = "") := by
      rintro (h | h)
      · exact hbne h
      · exact hsne h
    rw [if_neg hg, hdec]
    dsimp only
    have hsecret : env.officePassSecret.getD ("") = "" := by rw [hsec]; rfl
    have hm : ¬(O.hmac (env.officePassSecret.getD ("")) body ≠ O.hmac ("") body) := by
      rw [hsecret]
      exact fun h => h rfl
    rw [if_neg hm, hparse]
    dsimp only
    rw [if_neg he0]
    exact decide_eq_true hle

/-- Claim C6 counterexample: with OFFICE_PASS_SECRET absent, office-pass
verification still succeeds for a presented token signed under the
empty-string key, so the absence of the pass-signing secret does not fail
the request. -/
theorem verifyOfficePass_empty_secret_counterexample :
    Env.officePassSecret { } = none
    ∧ verifyOfficePass demoOracles { } 0 ("expbody.mac::expbody") = true :=
  ⟨rfl, rfl⟩

/-- Claim C6 witness: with the ASN-lookup token absent the guard answers
403. -/
theorem missing_env_fails_closed_witness :
    (handler demoOracles { } (some "POST") headersOfficeIp none 0 (.rows []) .httpFail).1.status = 403 :=
  missing_env_fails_closed_except_pass_secret.1 demoOracles { } headersOfficeIp none 0
    (.rows []) .httpFail rfl

/-- The spec's notion of a well-formed dotted-quad IPv4 address (exactly
four non-empty all-digit parts, each at most 255), used to state the
fail-closed clause about malformed IPs. -/
def isDottedQuad (s : String) : Bool :=
  match jsSplit ('.') s with
  | [a, b, c, d] =>
    [a, b, c, d].all fun p =>
      !(p.data.isEmpty) && p.data.all Char.isDigit && decide (decimalVal p.data ≤ 255)
  | _ => false

theorem cidrMask_eq : ∀ n : Nat, n < 33 → cidrMask ((n : Nat) : Int) = (2 : Int) ^ 32 - 2 ^ (32 - n) := by
  decide

theorem toInt32_natCast_inj (u v : Nat) (hu : u < 2 ^ 32) (hv : v < 2 ^ 32) :
    (toInt32 (u : Int) = toInt32 (v : Int)) ↔ u = v := by
  unfold toInt32
  split_ifs <;> omega

theorem toUint32_eq_toNat (x : Int) (h0 : 0 ≤ x) (hlt : x < 2 ^ 32) :
    toUint32 x = x.toNat := by
  unfold toUint32
  omega

theorem land_high_mask (x k : Nat) (hk : k ≤ 32) (hx : x < 2 ^ 32) :
    x &&& (2 ^ 32 - 2 ^ k) = x / 2 ^ k * 2 ^ k := by
  apply Nat.eq_of_testBit_eq
  intro i
  have hmask : (2 : Nat) ^ 32 - 2 ^ k = (2 ^ (32 - k) - 1) <<< k := by
    rw [Nat.shiftLeft_eq, Nat.sub_mul, one_mul, ← Nat.pow_add, Nat.sub_add_cancel hk]
  have hdm : x / 2 ^ k * 2 ^ k = (x >>> k) <<< k := by
    rw [Nat.shiftRight_eq_div_pow, Nat.shiftLeft_eq]
  rw [Nat.testBit_and, hmask, hdm, Nat.testBit_shiftLeft, Nat.testBit_shiftLeft,
    Nat.testBit_shiftRight, Nat.testBit_two_pow_sub_one]
  by_cases hik : k ≤ i
  · have hki : k + (i - k) = i := by omega
    rw [hki]
    by_cases hi32 : i < 32
    · have : i - k < 32 - k := by omega
      simp [hik, this]
    · have hxb : x.testBit i = false :=
        Nat.testBit_lt_two_pow (lt_of_lt_of_le hx (Nat.pow_le_pow_right (by norm_num) (by omega)))
      have : ¬(i - k < 32 - k) := by omega
      simp [hxb, this]
  · simp [hik]

theorem jsAnd_high_mask_iff (x y : Int) (k : Nat) (hk : k ≤ 32)
    (hx0 : 0 ≤ x) (hx : x < 2 ^ 32) (hy0 : 0 ≤ y) (hy : y < 2 ^ 32) :
    (jsAnd x ((2 : Int) ^ 32 - 2 ^ k) = jsAnd y ((2 : Int) ^ 32 - 2 ^ k))
      ↔ x.toNat / 2 ^ k = y.toNat / 2 ^ k := by
  have hkpow : (2 : Nat) ^ k ≤ 2 ^ 32 := Nat.pow_le_pow_right (by norm_num) hk
  have hcast : ((2 : Int) ^ 32 - 2 ^ k) = (((2 ^ 32 - 2 ^ k : Nat) : Int)) := by
    rw [Nat.cast_sub hkpow]
    push_cast
    ring
  have hmlt : (2 ^ 32 - 2 ^ k : Nat) < 2 ^ 32 := by
    have : 0 < (2 : Nat) ^ k := Nat.pos_pow_of_pos k (by norm_num)
    omega
  unfold jsAnd
  rw [hcast, toUint32_eq_toNat x hx0 hx, toUint32_eq_toNat y hy0 hy,
    toUint32_eq_toNat (((2 ^ 32 - 2 ^ k : Nat) : Int)) (by positivity) (by exact_mod_cast hmlt)]
  rw [Int.toNat_natCast]
  rw [land_high_mask x.toNat k hk (by omega), land_high_mask y.toNat k hk (by omega)]
  rw [toInt32_natCast_inj _ _
    (lt_of_le_of_lt (Nat.div_mul_le_self _ _) (by omega))
    (lt_of_le_of_lt (Nat.div_mul_le_self _ _) (by omega))]
  constructor
  · intro h
    exact Nat.eq_of_mul_eq_mul_right (Nat.pos_pow_of_pos k (by norm_num)) h
  · intro h
    rw [h]

theorem jsUshr0_jsShl24 (a : Int) (h0 : 0 ≤ a) (h255 : a ≤ 255) :
    jsUshr0 (jsShl a 24) = a * 16777216 := by
  have he : toUint32 24 % 32 = 24 := by decide
  unfold jsShl
  rw [he]
  unfold jsUshr0 toInt32 toUint32
  norm_num
  split_ifs <;> omega

theorem jsShl16_eq (b : Int) (h0 : 0 ≤ b) (h255 : b ≤ 255) :
    jsShl b 16 = b * 65536 := by
  have he : toUint32 16 % 32 = 16 := by decide
  unfold jsShl
  rw [he]
  unfold toInt32
  norm_num
  split_ifs <;> omega

theorem jsShl8_eq (c : Int) (h0 : 0 ≤ c) (h255 : c ≤ 255) :
    jsShl c 8 = c * 256 := by
  have he : toUint32 8 % 32 = 8 := by decide
  unfold jsShl
  rw [he]
  unfold toInt32
  norm_num
  split_ifs <;> omega

theorem ipv4ToInt_range (s : String) (v : Int) (h : ipv4ToInt s = some v) :
    0 ≤ v ∧ v < 2 ^ 32 := by
  unfold ipv4ToInt at h
  split at h
  case _ a b c d heq =>
    split_ifs at h with hcond
    obtain ⟨ha0, ha, hb0, hb, hc0, hc, hd0, hd⟩ := hcond
    injection h with h
    rw [jsUshr0_jsShl24 a ha0 ha, jsShl16_eq b hb0 hb, jsShl8_eq c hc0 hc] at h
    omega
  case _ => cases h

/-- Claim C5: for CIDR strings splitting into a base and an integer prefix
n with 0 <= n <= 32, and for any address strings the code parses to 32-bit
values, containment holds iff the first n bits of the parsed address and
base agree (so n = 0 matches every parsed IP and n = 32 exactly the equal
ones); a prefix that fails integer parsing or lies outside 0..32, and any
part the parser rejects, fail closed to false, and the function is total so
it never throws.  (Fail-closed does not extend to every malformed IP string:
see the counterexample.) -/
theorem cidrContainsIPv4_spec :
    (∀ (cidr ip netStr bitsStr : String) (n : Nat) (net addr : Int),
      jsSplit ('/') cidr = [netStr, bitsStr] →
      jsNum bitsStr = some ((n : Nat) : Int) →
      n ≤ 32 →
      ipv4ToInt netStr = some net →
      ipv4ToInt ip = some addr →
      (cidrContainsIPv4 cidr ip = true
        ↔ addr.toNat / 2 ^ (32 - n) = net.toNat / 2 ^ (32 - n)))
    ∧ (∀ cidr ip, ((jsSplit ('/') cidr).get? 1).bind jsNum = none →
        cidrContainsIPv4 cidr ip = false)
    ∧ (∀ (cidr ip : String) (b : Int),
        ((jsSplit ('/') cidr).get? 1).bind jsNum = some b →
        (b < 0 ∨ 32 < b) →
        cidrContainsIPv4 cidr ip = false)
    ∧ (∀ cidr ip,
        ipv4ToInt ((jsSplit ('/') cidr).headD ("")) = none ∨ ipv4ToInt ip = none →
        cidrContainsIPv4 cidr ip = false) := by
  refine ⟨?_, ?_, ?_, ?_⟩
  · intro cidr ip netStr bitsStr n net addr hsplit hbits hn hnet haddr
    have hbind : ((jsSplit ('/') cidr).get? 1).bind jsNum = some ((n : Nat) : Int) := by
      rw [hsplit]
      simpa using hbits
    have hhead : (jsSplit ('/') cidr).headD ("") = netStr := by
      rw [hsplit]
      rfl
    unfold cidrContainsIPv4
    rw [hbind]
    dsimp only
    have hno : ¬(((n : Nat) : Int) < 0 ∨ 32 < ((n : Nat) : Int)) := by
      push_neg
      constructor
      · positivity
      · exact_mod_cast hn
    rw [if_neg hno, hhead, hnet, haddr]
    dsimp only
    rw [cidrMask_eq n (by omega)]
    obtain ⟨hnet0, hnetlt⟩ := ipv4ToInt_range netStr net hnet
    obtain ⟨haddr0, haddrlt⟩ := ipv4ToInt_range ip addr haddr
    rw [decide_eq_true_eq]
    rw [jsAnd_high_mask_iff net addr (32 - n) (by omega) hnet0 hnetlt haddr0 haddrlt]
    exact eq_comm
  · intro cidr ip hnone
    unfold cidrContainsIPv4
    rw [hnone]
  · intro cidr ip b hsome hout
    unfold cidrContainsIPv4
    rw [hsome]
    exact if_pos hout
  · intro cidr ip h
    unfold cidrContainsIPv4
    cases hb : ((jsSplit ('/') cidr).get? 1).bind jsNum with
    | none => rfl
    | some bits =>
      dsimp only
      by_cases hout : bits < 0 ∨ 32 < bits
      · exact if_pos hout
      · rw [if_neg hout]
        rcases h with h | h
        · rw [h]
        · rw [h]
          cases ipv4ToInt ((jsSplit ('/') cidr).headD ("")) <;> rfl

/-- Claim C5 counterexample: fail-closed does not hold for all malformed
IPs.  The string 1.2.3. is not a dotted quad, yet its empty last part
coerces through Number to 0, so the code parses it as 1.2.3.0 and a /32
range containing only 1.2.3.0 reports it as contained. -/
theorem cidrContains_malformed_ip_counterexample :
    isDottedQuad ("1.2.3.") = false
    ∧ ipv4ToInt ("1.2.3.") = some 16909056
    ∧ cidrContainsIPv4 ("1.2.3.0/32") ("1.2.3.") = true :=
  ⟨rfl, by decide, by decide⟩

/-- Claim C5 witness: the documented scenario, an address inside a /24
range, evaluates to contained via the first-bits characterization. -/
theorem cidrContainsIPv4_spec_witness :
    cidrContainsIPv4 ("203.0.113.0/24") ("203.0.113.42") = true :=
  (cidrContainsIPv4_spec.1 ("203.0.113.0/24") ("203.0.113.42") ("203.0.113.0") ("24")
      24 (3405803776 : Int) (3405803818 : Int)
      (by decide) (by decide) (by decide) (by decide) (by decide)).mpr (by decide)

example : jsSplit ('.') ("1.2.3.4") = ["1", "2", "3", "4"] := by decide
example : jsSplit ('.') ("1.2.3.") = ["1", "2", "3", ""] := by decide
example : jsNum ("") = some 0 := by decide
example : jsNum ("24") = some 24 := by decide
example : jsNum ("0x0a") = some 10 := by decide
example : jsNum ("xyz") = none := by decide
example : ipv4ToInt ("203.0.113.42") = some 3405803818 := by decide
example : cidrContainsIPv4 ("203.0.113.0/24") ("203.0.113.42") = true := by decide
example : cidrContainsIPv4 ("203.0.113.0/24") ("203.0.114.1") = false := by decide
example : cidrContainsIPv4 ("1.2.3.0/32") ("1.2.3.") = true := by decide

end SynergyHR
